import Mathlib

/-!
Shallow embedding of `src/linkedin_automation.py`.

The script drives a Selenium browser through a LinkedIn workflow. Here the
DOM is abstracted as a function from a locator (a `By` kind, a selector
string) and a polling timeout to the element, if any, that presence-polling
would find within that timeout; `WebElement.is_displayed()` is a field of the
element. The module-level `BrowserManager` (browser handle, `cookies.json`)
becomes an explicit `BrowserState` threaded through the handlers, with the
set of launched-and-not-quit browser processes tracked so that process leaks
are observable. Each FastAPI handler `f` is split into `fBody` (the code
inside its `try:` block, returning `Except` for a raised exception) and `f`
(the handler with its blanket `except Exception` clause, which converts any
exception into the handler's generic `HTTPException`), mirroring the
source's control flow. Side-effecting UI calls (clicks, typing) are recorded
as a `UIAction` trace so that "no message box is opened" is provable.
-/

namespace LinkedinAuto

/-- Selenium locator kinds used by the script: `By.XPATH` and `By.ID`. -/
inductive By where
  | xpath
  | id
deriving DecidableEq, Repr

/-- A DOM element reference: an identity and the value of `is_displayed()`. -/
structure Element where
  eid : Nat
  displayed : Bool
deriving DecidableEq, Repr

/-- Selenium's `WebElement.is_displayed()`. -/
def Element.is_displayed (e : Element) : Bool := e.displayed

/-- A DOM snapshot, abstracted: for a locator `(b, value)` and a polling
timeout (seconds), the element (if any) that `WebDriverWait(driver, timeout)
.until(EC.presence_of_element_located((b, value)))` finds within the
timeout. `none` means the poll times out. -/
abbrev DOM := By → String → Nat → Option Element

/-- FastAPI's `HTTPException(status_code, detail)`. -/
structure HTTPException where
  status_code : Nat
  detail : String
deriving DecidableEq, Repr

/-- An exception a handler body can raise: an `HTTPException`, or the
`TimeoutException` selenium's `WebDriverWait` raises (used by `doLogin`'s
15-second wait for the feed URL). Both are subclasses of Python's
`Exception`, so both are caught by a handler's blanket `except` clause. -/
inductive PyExc where
  | http (e : HTTPException)
  | seleniumTimeout
deriving DecidableEq, Repr

/-- Lines 97-106: `waitForElement(driver, by, value, timeout=10)`. Waits for
presence (not visibility); on timeout the bare `except:` converts the
failure into `HTTPException(404, f"Element {value} not found")`. The
source's default `timeout=10` is passed explicitly at every call site. -/
def waitForElement (dom : DOM) (b : By) (value : String) (timeout : Nat) :
    Except HTTPException Element :=
  match dom b value timeout with
  | some element => Except.ok element
  | none => Except.error ⟨404, "Element " ++ value ++ " not found"⟩

/-- Lines 110-114: the ordered strategy list of `findConnectBtn`. -/
def possible_selectors : List String :=
  [ "//button[contains(@aria-label, 'Invite') and contains(@aria-label, 'to connect')]",
    "//button[contains(text(), 'Connect')]",
    "//button[contains(@class, 'connect-button')]" ]

/-- Line 126: the selector of the "More actions" menu button. -/
def moreActionsSelector : String := "//button[@aria-label='More actions']"

/-- Line 129: the nested selector run against the revealed dropdown. -/
def dropdownConnectSelector : String :=
  "//div[contains(@class, 'artdeco-dropdown')]//span[contains(text(), 'Connect')]"

/-- Lines 116-122: the direct-strategy loop of `findConnectBtn`. For each
selector: `waitForElement` (presence, default timeout 10); if it raises, the
`except: continue` moves to the next selector; if the element is present but
`is_displayed()` is false, the `if` does not return and the loop also moves
on. Returns the first present-and-displayed element. -/
def tryDirect (dom : DOM) : List String → Option Element
  | [] => none
  | selector :: rest =>
    match waitForElement dom By.xpath selector 10 with
    | Except.ok button => if button.is_displayed then some button else tryDirect dom rest
    | Except.error _ => tryDirect dom rest

/-- A page as `findConnectBtn` sees it: the profile page's DOM, and the DOM
after the "More actions" button has been clicked (line 127) and the dropdown
contents revealed. -/
structure ProfilePage where
  dom : DOM
  domAfterMoreClick : DOM

/-- Lines 108-133: `findConnectBtn(driver)`. Direct strategies first; when
all are exhausted, one fallback: locate "More actions" (presence only),
click it, then locate the dropdown's Connect option (presence only, no
`is_displayed` check) and return it; any failure inside the fallback `try`
raises `HTTPException(404, "Connect button not found")`. -/
def findConnectBtn (page : ProfilePage) : Except HTTPException Element :=
  match tryDirect page.dom possible_selectors with
  | some button => Except.ok button
  | none =>
    match waitForElement page.dom By.xpath moreActionsSelector 10 with
    | Except.ok _more_btn =>
      match waitForElement page.domAfterMoreClick By.xpath dropdownConnectSelector 10 with
      | Except.ok connect_option => Except.ok connect_option
      | Except.error _ => Except.error ⟨404, "Connect button not found"⟩
    | Except.error _ => Except.error ⟨404, "Connect button not found"⟩

/-- Lines 137-141: the ordered indicator list of `checkIfConnected`. -/
def indicators : List String :=
  [ "//span[contains(text(), '1st')]",
    "//button[contains(text(), 'Message')]",
    "//span[contains(@class, 'connection-status') and contains(text(), 'Connected')]" ]

/-- Lines 143-149: the indicator loop of `checkIfConnected`: each indicator
is polled with `timeout=5`; success returns `True`; the `except: continue`
absorbs the 404 and moves on; an exhausted loop returns `False`. -/
def connectedLoop (dom : DOM) : List String → Bool
  | [] => false
  | indicator :: rest =>
    match waitForElement dom By.xpath indicator 5 with
    | Except.ok _ => true
    | Except.error _ => connectedLoop dom rest

/-- Lines 135-149: `checkIfConnected(driver)`. Total (`Bool`-valued): no
exception can escape, every indicator failure is absorbed by its `except`. -/
def checkIfConnected (dom : DOM) : Bool := connectedLoop dom indicators

/-- The "satisfiable strategy" reading of one selector: the element it
matches within the default 10s timeout, provided that element is displayed;
`none` when the selector is absent or its match is present but hidden. -/
def satElem (dom : DOM) (selector : String) : Option Element :=
  match dom By.xpath selector 10 with
  | some e => if e.is_displayed then some e else none
  | none => none

/-- The state owned by `BrowserManager` (lines 40-95) plus observables:
`browser` is `self.browser` (a process id or `None`), `fileExists` is
whether `cookies.json` exists on disk, `liveProcesses` are the ids of
browser processes launched and never `quit()`, `nextPid` feeds fresh ids. -/
structure BrowserState where
  browser : Option Nat
  fileExists : Bool
  liveProcesses : List Nat
  nextPid : Nat
deriving DecidableEq, Repr

/-- Lines 45-66: `BrowserManager.startBrowser`. Unconditionally launches a
new browser process and assigns it to `self.browser`, with no check whether
a browser already exists; a previously live process is neither quit nor
forgotten from the process table (it leaks). Launch failure is out of scope
of this model (the `except` that raises 500 is never reached here). -/
def startBrowser (s : BrowserState) : BrowserState :=
  { s with
    browser := some s.nextPid
    liveProcesses := s.nextPid :: s.liveProcesses
    nextPid := s.nextPid + 1 }

/-- Lines 68-74: `saveCookies`. If a browser is live, overwrite
`cookies.json` wholesale; otherwise do nothing. -/
def saveCookies (s : BrowserState) : BrowserState :=
  match s.browser with
  | none => s
  | some _ => { s with fileExists := true }

/-- Lines 85-92: `shutdown`. If a browser is live: quit it, clear the
handle, and delete `cookies.json` if present. If `self.browser` is `None`
the whole body is skipped — in particular the cookie file is NOT deleted. -/
def shutdown (s : BrowserState) : BrowserState :=
  match s.browser with
  | none => s
  | some pid =>
    { s with
      browser := none
      liveProcesses := s.liveProcesses.erase pid
      fileExists := false }

/-- Lines 155-156 (inside `doLogin`): `if not browser_mgr.browser:
browser_mgr.startBrowser()`. The start-if-absent guard lives in the
handler, not in `startBrowser` itself. -/
def ensureBrowser (s : BrowserState) : BrowserState :=
  match s.browser with
  | none => startBrowser s
  | some _ => s

/-- The value a handler returns to the request layer: the `{"status": "ok",
"message": ...}` dict, or a raised `HTTPException` FastAPI turns into an
error response. -/
inductive Outcome where
  | ok (message : String)
  | httpError (status_code : Nat) (detail : String)
deriving DecidableEq, Repr

/-- UI side effects the handlers perform, recorded in order. -/
inductive UIAction where
  | fillField (fieldId : String) (text : String)
  | clickSubmit
  | clickConnect
  | clickSendNow
  | clickMessageBtn
  | typeMessage (text : String)
  | clickSend
deriving DecidableEq, Repr

/-- Lines 28-30: the `/login` request model. -/
structure LoginCredentials where
  email : String
  passwd : String
deriving DecidableEq, Repr

/-- Does `needle` occur as a substring of `haystack` starting at its head? -/
def charsStart : List Char → List Char → Bool
  | [], _ => true
  | _ :: _, [] => false
  | p :: ps, c :: cs => p == c && charsStart ps cs

/-- Does `needle` occur as a substring anywhere in the character list? -/
def charsContain (needle : List Char) : List Char → Bool
  | [] => charsStart needle []
  | c :: cs => charsStart needle (c :: cs) || charsContain needle cs

/-- Python's `needle in haystack` on strings (for the nonempty needles the
script uses, such as `"feed"`). -/
def pyIn (needle haystack : String) : Bool :=
  charsContain needle.toList haystack.toList

/-- The page environment `doLogin` runs against: `current_url` after
navigating to the login page and running `loadCookies` (which only injects
cookies and reads the file; it does not change manager state), the login
page's DOM, and whether `WebDriverWait(browser, 15).until(EC.url_contains
("feed"))` succeeds after the form is submitted. -/
structure LoginPage where
  current_url : String
  dom : DOM
  feedReached : Bool

/-- Lines 154-185: the body of the `try:` in `doLogin`. Ensure a browser,
navigate, load cookies; if `"feed" in current_url` return "Already logged
in" at once (no field is touched); otherwise locate and fill username,
password, submit (each `waitForElement` with the default 10s timeout, each
failure raising 404 out of the body), wait 15s for the feed URL
(`TimeoutException` on failure), save cookies, return "Logged in
successfully". Returns the manager state, the UI actions performed, and the
result or raised exception. -/
def doLoginBody (s : BrowserState) (page : LoginPage) (creds : LoginCredentials) :
    BrowserState × List UIAction × Except PyExc String :=
  let s1 := ensureBrowser s
  if pyIn "feed" page.current_url then
    (s1, [], Except.ok "Already logged in")
  else
    match waitForElement page.dom By.id "username" 10 with
    | Except.error e => (s1, [], Except.error (PyExc.http e))
    | Except.ok _username_field =>
      match waitForElement page.dom By.id "password" 10 with
      | Except.error e =>
        (s1, [UIAction.fillField "username" creds.email], Except.error (PyExc.http e))
      | Except.ok _password_field =>
        match waitForElement page.dom By.xpath "//button[@type='submit']" 10 with
        | Except.error e =>
          (s1,
           [UIAction.fillField "username" creds.email,
            UIAction.fillField "password" creds.passwd],
           Except.error (PyExc.http e))
        | Except.ok _submit_btn =>
          if page.feedReached then
            (saveCookies s1,
             [UIAction.fillField "username" creds.email,
              UIAction.fillField "password" creds.passwd,
              UIAction.clickSubmit],
             Except.ok "Logged in successfully")
          else
            (s1,
             [UIAction.fillField "username" creds.email,
              UIAction.fillField "password" creds.passwd,
              UIAction.clickSubmit],
             Except.error PyExc.seleniumTimeout)

/-- Lines 151-189: the `/login` handler. Any exception raised by the body
(including a `waitForElement` 404 and the 15s `TimeoutException`) is caught
by `except Exception` and replaced by `HTTPException(400, "Login didn't
work, check credentials")`. -/
def doLogin (s : BrowserState) (page : LoginPage) (creds : LoginCredentials) :
    BrowserState × List UIAction × Outcome :=
  match doLoginBody s page creds with
  | (s2, acts, Except.ok msg) => (s2, acts, Outcome.ok msg)
  | (s2, acts, Except.error _) =>
    (s2, acts, Outcome.httpError 400 "Login didn't work, check credentials")

/-- The environment `/connect` runs against: the target profile page (for
`findConnectBtn`), and the DOM after the connect action has been clicked,
against which the optional "Send now" confirmation is polled (line 207,
`timeout=5`). -/
structure ConnectEnv where
  page : ProfilePage
  confirmDom : DOM

/-- Line 207: the confirmation selector. -/
def sendNowSelector : String := "//button[contains(@aria-label, 'Send now')]"

/-- Lines 194-214: the body of the `try:` in `sendConnect`. No browser means
`raise HTTPException(400, "Need to login first!")` (raised INSIDE the try).
Otherwise navigate, `findConnectBtn` (its 404 propagates out of the body),
move-then-click the button, then try the "Send now" confirmation for 5s —
its absence is swallowed by `except: pass` — then `saveCookies` and return
"Connection request sent". -/
def sendConnectBody (s : BrowserState) (env : ConnectEnv) :
    BrowserState × List UIAction × Except PyExc String :=
  match s.browser with
  | none => (s, [], Except.error (PyExc.http ⟨400, "Need to login first!"⟩))
  | some _ =>
    match findConnectBtn env.page with
    | Except.error e => (s, [], Except.error (PyExc.http e))
    | Except.ok _connect_button =>
      match waitForElement env.confirmDom By.xpath sendNowSelector 5 with
      | Except.ok _send_btn =>
        (saveCookies s,
         [UIAction.clickConnect, UIAction.clickSendNow],
         Except.ok "Connection request sent")
      | Except.error _ =>
        (saveCookies s, [UIAction.clickConnect], Except.ok "Connection request sent")

/-- Lines 191-218: the `/connect` handler. Any exception raised by the body
— the precondition `HTTPException` included — is caught by `except
Exception` and replaced by `HTTPException(400, "Couldn't send connection
request")`. -/
def sendConnect (s : BrowserState) (env : ConnectEnv) :
    BrowserState × List UIAction × Outcome :=
  match sendConnectBody s env with
  | (s2, acts, Except.ok msg) => (s2, acts, Outcome.ok msg)
  | (s2, acts, Except.error _) =>
    (s2, acts, Outcome.httpError 400 "Couldn't send connection request")

/-- The environment `/check_connection` runs against: the profile page DOM
(used by `checkIfConnected` and the Message-button lookup) and the DOM after
the Message button has been clicked (compose box and Send button). -/
structure MessageEnv where
  dom : DOM
  composeDom : DOM

/-- Lines 222-243: the body of the `try:` in `checkAndMessage`. No browser
means `raise HTTPException(400, "Login required!")` (inside the try).
Otherwise navigate, probe with `checkIfConnected`; if connected, locate the
Message button (10s), click it, locate the compose textbox (10s), type the
message, locate Send (10s), click it, return "Message sent successfully";
if not connected, return "Not connected yet" having touched nothing. -/
def checkAndMessageBody (s : BrowserState) (env : MessageEnv) (messageText : String) :
    BrowserState × List UIAction × Except PyExc String :=
  match s.browser with
  | none => (s, [], Except.error (PyExc.http ⟨400, "Login required!"⟩))
  | some _ =>
    if checkIfConnected env.dom then
      match waitForElement env.dom By.xpath "//button[contains(text(), 'Message')]" 10 with
      | Except.error e => (s, [], Except.error (PyExc.http e))
      | Except.ok _message_btn =>
        match waitForElement env.composeDom By.xpath "//div[@role='textbox']" 10 with
        | Except.error e => (s, [UIAction.clickMessageBtn], Except.error (PyExc.http e))
        | Except.ok _message_box =>
          match waitForElement env.composeDom By.xpath "//button[contains(text(), 'Send')]" 10 with
          | Except.error e =>
            (s, [UIAction.clickMessageBtn, UIAction.typeMessage messageText],
             Except.error (PyExc.http e))
          | Except.ok _send_btn =>
            (s,
             [UIAction.clickMessageBtn, UIAction.typeMessage messageText, UIAction.clickSend],
             Except.ok "Message sent successfully")
    else
      (s, [], Except.ok "Not connected yet")

/-- Lines 220-247: the `/check_connection` handler. Any exception raised by
the body is caught by `except Exception` and replaced by
`HTTPException(400, "Something went wrong with messaging")`. -/
def checkAndMessage (s : BrowserState) (env : MessageEnv) (messageText : String) :
    BrowserState × List UIAction × Outcome :=
  match checkAndMessageBody s env messageText with
  | (s2, acts, Except.ok msg) => (s2, acts, Outcome.ok msg)
  | (s2, acts, Except.error _) =>
    (s2, acts, Outcome.httpError 400 "Something went wrong with messaging")

/-- Lines 249-258: the `/close` handler. `shutdown` (which in this model
raises nothing, so the `except` branch is unreachable) and the fixed success
message. -/
def closeBrowser (s : BrowserState) : BrowserState × Outcome :=
  (shutdown s, Outcome.ok "Browser session closed")

/-- A DOM in which every lookup times out. -/
def emptyDOM : DOM := fun _ _ _ => none

/-- The manager state at module import: no browser, no cookie file. -/
def freshState : BrowserState :=
  { browser := none, fileExists := false, liveProcesses := [], nextPid := 0 }

/-- A state with one live browser (pid 0) and no cookie file. -/
def activeState : BrowserState :=
  { browser := some 0, fileExists := false, liveProcesses := [0], nextPid := 1 }

/-- A state with no browser but a cookie file left on disk (e.g. the service
restarted after a `save`, or two managers shared the working directory). -/
def staleState : BrowserState :=
  { browser := none, fileExists := true, liveProcesses := [], nextPid := 1 }

/-- A profile page on which the second AND third direct strategies match
displayed elements (ids 2 and 3) while the first matches nothing. -/
def multiSatDOM : DOM := fun _ v _ =>
  if v == "//button[contains(text(), 'Connect')]" then some ⟨2, true⟩
  else if v == "//button[contains(@class, 'connect-button')]" then some ⟨3, true⟩
  else none

/-- The `ProfilePage` wrapping `multiSatDOM` (no dropdown content). -/
def multiSatPage : ProfilePage :=
  { dom := multiSatDOM, domAfterMoreClick := emptyDOM }

/-- A profile page whose first direct strategy matches a displayed element
(id 1). -/
def directVisibleDOM : DOM := fun _ v _ =>
  if v == "//button[contains(@aria-label, 'Invite') and contains(@aria-label, 'to connect')]" then
    some ⟨1, true⟩
  else none

/-- The `ProfilePage` wrapping `directVisibleDOM`. -/
def directVisiblePage : ProfilePage :=
  { dom := directVisibleDOM, domAfterMoreClick := emptyDOM }

/-- A profile page with no direct match: only the "More actions" button (id
4) and, after the click, a displayed dropdown Connect option (id 5). -/
def menuOnlyPage : ProfilePage :=
  { dom := fun _ v _ => if v == "//button[@aria-label='More actions']" then some ⟨4, true⟩ else none,
    domAfterMoreClick := fun _ v _ =>
      if v == "//div[contains(@class, 'artdeco-dropdown')]//span[contains(text(), 'Connect')]" then
        some ⟨5, true⟩
      else none }

/-- A profile page with no direct match, a "More actions" button (id 7), and
a dropdown Connect option that is present but NOT displayed (id 8). -/
def hiddenMenuPage : ProfilePage :=
  { dom := fun _ v _ => if v == "//button[@aria-label='More actions']" then some ⟨7, true⟩ else none,
    domAfterMoreClick := fun _ v _ =>
      if v == "//div[contains(@class, 'artdeco-dropdown')]//span[contains(text(), 'Connect')]" then
        some ⟨8, false⟩
      else none }

/-- A login page already inside the authenticated area. -/
def feedLoginPage : LoginPage :=
  { current_url := "https://www.linkedin.com/feed/", dom := emptyDOM, feedReached := false }

/-- A `/connect` environment with a directly visible connect button and no
confirmation dialog. -/
def connectEnvNoConfirm : ConnectEnv :=
  { page := directVisiblePage, confirmDom := emptyDOM }

/-- A `/connect` environment in which nothing at all is on the page. -/
def emptyConnectEnv : ConnectEnv :=
  { page := { dom := emptyDOM, domAfterMoreClick := emptyDOM }, confirmDom := emptyDOM }

/-- A `/check_connection` environment in which nothing at all is on the
page. -/
def emptyMessageEnv : MessageEnv := { dom := emptyDOM, composeDom := emptyDOM }

/-! Helper lemmas about the strategy loops. -/

/-- One step of the direct-strategy loop, phrased through `satElem`. -/
theorem tryDirect_cons (dom : DOM) (selector : String) (rest : List String) :
    tryDirect dom (selector :: rest) =
      match satElem dom selector with
      | some e => some e
      | none => tryDirect dom rest := by
  cases hd : dom By.xpath selector 10 with
  | none => simp [tryDirect, satElem, waitForElement, hd]
  | some e =>
    cases he : e.is_displayed <;>
      simp [tryDirect, satElem, waitForElement, hd, he]

/-- The direct loop yields the first selector whose match is present and
displayed, whatever later selectors would yield. -/
theorem tryDirect_first (dom : DOM) (sels : List String) (i : Nat)
    (hi : i < sels.length) (e : Element)
    (hsat : satElem dom (sels.get ⟨i, hi⟩) = some e)
    (hprior : ∀ (j : Nat) (hj : j < i),
      satElem dom (sels.get ⟨j, Nat.lt_trans hj hi⟩) = none) :
    tryDirect dom sels = some e := by
  induction sels generalizing i with
  | nil => simp at hi
  | cons sel rest ih =>
    rw [tryDirect_cons]
    cases i with
    | zero =>
      have : satElem dom sel = some e := hsat
      rw [this]
    | succ i =>
      have h0 : satElem dom sel = none := hprior 0 (Nat.succ_pos i)
      rw [h0]
      exact ih i (Nat.lt_of_succ_lt_succ hi) hsat
        (fun j hj => hprior (j + 1) (Nat.succ_lt_succ hj))

/-- When no selector has a displayed match, the direct loop finds nothing. -/
theorem tryDirect_eq_none (dom : DOM) (sels : List String)
    (h : ∀ sel ∈ sels, satElem dom sel = none) :
    tryDirect dom sels = none := by
  induction sels with
  | nil => rfl
  | cons sel rest ih =>
    rw [tryDirect_cons, h sel (List.mem_cons_self sel rest)]
    exact ih (fun x hx => h x (List.mem_cons_of_mem sel hx))

/-- Anything `satElem` yields is displayed. -/
theorem satElem_displayed (dom : DOM) (sel : String) (e : Element)
    (h : satElem dom sel = some e) : e.is_displayed = true := by
  unfold satElem at h
  cases hd : dom By.xpath sel 10 with
  | none => rw [hd] at h; exact absurd h (by simp)
  | some e2 =>
    rw [hd] at h
    cases he : e2.is_displayed with
    | false => simp [Element.is_displayed] at h he; simp [he] at h
    | true =>
      simp [Element.is_displayed] at h he
      simp [he] at h
      subst h
      simpa [Element.is_displayed] using he

/-- Anything the direct loop yields is displayed. -/
theorem tryDirect_displayed (dom : DOM) (sels : List String) (e : Element)
    (h : tryDirect dom sels = some e) : e.is_displayed = true := by
  induction sels with
  | nil => simp [tryDirect] at h
  | cons sel rest ih =>
    rw [tryDirect_cons] at h
    cases hs : satElem dom sel with
    | none => rw [hs] at h; exact ih h
    | some e2 =>
      rw [hs] at h
      simp only [Option.some.injEq] at h
      subst h
      exact satElem_displayed dom sel e2 hs

/-- One step of the indicator loop. -/
theorem connectedLoop_cons (dom : DOM) (indicator : String) (rest : List String) :
    connectedLoop dom (indicator :: rest) =
      match dom By.xpath indicator 5 with
      | some _ => true
      | none => connectedLoop dom rest := by
  cases hd : dom By.xpath indicator 5 <;>
    simp [connectedLoop, waitForElement, hd]

/-- With every indicator absent the loop returns `false`. -/
theorem connectedLoop_eq_false (dom : DOM) (inds : List String)
    (h : ∀ ind ∈ inds, dom By.xpath ind 5 = none) :
    connectedLoop dom inds = false := by
  induction inds with
  | nil => rfl
  | cons ind rest ih =>
    rw [connectedLoop_cons, h ind (List.mem_cons_self ind rest)]
    exact ih (fun x hx => h x (List.mem_cons_of_mem ind hx))

/-- With some indicator present the loop returns `true`. -/
theorem connectedLoop_eq_true (dom : DOM) (inds : List String)
    (h : ∃ ind ∈ inds, dom By.xpath ind 5 ≠ none) :
    connectedLoop dom inds = true := by
  induction inds with
  | nil => obtain ⟨ind, hmem, _⟩ := h; simp at hmem
  | cons ind rest ih =>
    rw [connectedLoop_cons]
    obtain ⟨w, hmem, hw⟩ := h
    rcases List.mem_cons.mp hmem with rfl | hmem2
    · cases hd : dom By.xpath w 5 with
      | none => exact absurd hd hw
      | some e => rfl
    · cases hd : dom By.xpath ind 5 with
      | none => exact ih ⟨w, hmem2, hw⟩
      | some e => rfl

/-! The claims. -/

/-- C1. With at least one satisfiable strategy (a selector whose match
within the default timeout is present and displayed), `findConnectBtn`
returns the element of the highest-priority satisfiable strategy in
declared order — lower-priority strategies, satisfiable or not, are never
chosen over it. -/
theorem findConnectBtn_first_satisfiable (page : ProfilePage) (i : Nat) (e : Element)
    (hi : i < possible_selectors.length)
    (hsat : satElem page.dom (possible_selectors.get ⟨i, hi⟩) = some e)
    (hprior : ∀ (j : Nat) (hj : j < i),
      satElem page.dom (possible_selectors.get ⟨j, Nat.lt_trans hj hi⟩) = none) :
    findConnectBtn page = Except.ok e := by
  unfold findConnectBtn
  rw [tryDirect_first page.dom possible_selectors i hi e hsat hprior]

/-- C1 witness: on `multiSatPage` strategies 2 and 3 are both satisfiable
(elements 2 and 3); the locator returns element 2, matched by the
higher-priority of the two. -/
theorem findConnectBtn_first_satisfiable_witness :
    findConnectBtn multiSatPage = Except.ok ⟨2, true⟩ := by
  apply findConnectBtn_first_satisfiable multiSatPage 1 ⟨2, true⟩ (by decide) (by rfl)
  intro j hj
  interval_cases j
  rfl

/-- C2 counterexample: on `hiddenMenuPage` no direct strategy matches, the
"More actions" button exists, and the dropdown's Connect option is present
but hidden; `findConnectBtn` still returns that hidden element, so the
locator does NOT guarantee visibility on the menu-fallback path. -/
theorem findConnectBtn_fallback_hidden_cex :
    findConnectBtn hiddenMenuPage = Except.ok ⟨8, false⟩ ∧
    Element.is_displayed ⟨8, false⟩ = false :=
  ⟨rfl, rfl⟩

/-- C2 amended: every element returned through the DIRECT-strategy loop of
`findConnectBtn` is present and displayed; `waitForElement` itself checks
presence only, and the menu-fallback path returns the dropdown option
without any visibility check (see the counterexample). -/
theorem findConnectBtn_direct_path_displayed (page : ProfilePage) (e : Element)
    (h : tryDirect page.dom possible_selectors = some e) :
    findConnectBtn page = Except.ok e ∧ e.is_displayed = true := by
  constructor
  · unfold findConnectBtn
    rw [h]
  · exact tryDirect_displayed page.dom possible_selectors e h

/-- C2 amended, witness: the directly visible connect button (element 1) is
returned and is displayed. -/
theorem findConnectBtn_direct_path_displayed_witness :
    findConnectBtn directVisiblePage = Except.ok ⟨1, true⟩ ∧
    Element.is_displayed ⟨1, true⟩ = true :=
  findConnectBtn_direct_path_displayed directVisiblePage ⟨1, true⟩ (by rfl)

/-- C3. When no direct strategy yields a visible element, `findConnectBtn`
takes exactly one fallback path: if the "More actions" button is present
and the dropdown Connect option is present after the click, that option is
returned (a connect action reachable only through the menu succeeds); if
either lookup fails, it raises `HTTPException(404, "Connect button not
found")`, the ElementNotFound outcome. -/
theorem findConnectBtn_menu_fallback (page : ProfilePage)
    (hdirect : ∀ sel ∈ possible_selectors, satElem page.dom sel = none) :
    (∀ m c, page.dom By.xpath moreActionsSelector 10 = some m →
      page.domAfterMoreClick By.xpath dropdownConnectSelector 10 = some c →
      findConnectBtn page = Except.ok c) ∧
    ((page.dom By.xpath moreActionsSelector 10 = none ∨
      page.domAfterMoreClick By.xpath dropdownConnectSelector 10 = none) →
      findConnectBtn page = Except.error ⟨404, "Connect button not found"⟩) := by
  have hdir := tryDirect_eq_none page.dom possible_selectors hdirect
  constructor
  · intro m c hm hc
    unfold findConnectBtn waitForElement
    rw [hdir, hm, hc]
  · intro hfail
    unfold findConnectBtn waitForElement
    rw [hdir]
    rcases hfail with hm | hc
    · rw [hm]
    · cases hmore : page.dom By.xpath moreActionsSelector 10 with
      | none => rfl
      | some m => rw [hc]

/-- C3 witness: on `menuOnlyPage` the connect action exists only inside the
"More actions" menu, and the locator returns it via the fallback. -/
theorem findConnectBtn_menu_fallback_witness :
    findConnectBtn menuOnlyPage = Except.ok ⟨5, true⟩ :=
  (findConnectBtn_menu_fallback menuOnlyPage (by decide)).1 ⟨4, true⟩ ⟨5, true⟩ rfl rfl

/-- C4. `checkIfConnected` is total (it returns a `Bool`, so no exception
can surface to the caller): when none of the three indicators resolves
within its individual 5-second timeout it returns `false` (NotConnected by
default), and when any indicator resolves the loop stops at the first one
in evaluation order and returns `true` (Connected). -/
theorem checkIfConnected_default_not_connected (dom : DOM) :
    ((∀ indicator ∈ indicators, dom By.xpath indicator 5 = none) →
      checkIfConnected dom = false) ∧
    ((∃ indicator ∈ indicators, dom By.xpath indicator 5 ≠ none) →
      checkIfConnected dom = true) := by
  constructor
  · intro h
    exact connectedLoop_eq_false dom indicators h
  · intro h
    exact connectedLoop_eq_true dom indicators h

/-- C4 witness: a page with none of the indicators present probes as not
connected. -/
theorem checkIfConnected_default_not_connected_witness :
    checkIfConnected emptyDOM = false :=
  (checkIfConnected_default_not_connected emptyDOM).1 (by decide)

/-- C5 counterexample: starting from the import-time state, calling
`startBrowser` twice without a shutdown leaves TWO live browser processes,
and the second call replaces the handle instead of returning the existing
one — `startBrowser` itself performs no existing-handle check. -/
theorem startBrowser_second_launch_cex :
    (startBrowser (startBrowser freshState)).liveProcesses.length = 2 ∧
    (startBrowser (startBrowser freshState)).browser ≠ (startBrowser freshState).browser := by
  decide

/-- C5 amended: the no-op-on-existing-handle behaviour lives in the CALLER,
not in `startBrowser`: `doLogin`'s guard (`ensureBrowser`, lines 155-156)
invokes `startBrowser` only when no handle exists, so from a fresh state
two guarded starts without an intervening shutdown yield exactly one live
browser process both times, and the second guarded start is a no-op
`startBrowser` alone does not provide. -/
theorem ensureBrowser_idempotent (s : BrowserState) (hb : s.browser = none)
    (hl : s.liveProcesses = []) :
    (ensureBrowser s).liveProcesses.length = 1 ∧
    ensureBrowser (ensureBrowser s) = ensureBrowser s ∧
    (ensureBrowser (ensureBrowser s)).liveProcesses.length = 1 := by
  simp [ensureBrowser, startBrowser, hb, hl]

/-- C5 amended, witness: two guarded starts from the import-time state. -/
theorem ensureBrowser_idempotent_witness :
    (ensureBrowser freshState).liveProcesses.length = 1 ∧
    ensureBrowser (ensureBrowser freshState) = ensureBrowser freshState ∧
    (ensureBrowser (ensureBrowser freshState)).liveProcesses.length = 1 :=
  ensureBrowser_idempotent freshState rfl rfl

/-- C6. When, after navigating to the login page and loading the prior
cookie snapshot, the current URL contains the feed marker, `doLogin`
returns "Already logged in" with success, performs no UI action (no field
is filled, nothing is submitted), and leaves the manager state at
`ensureBrowser s` (only the ensure-started step ran). -/
theorem doLogin_already_logged_in (s : BrowserState) (page : LoginPage)
    (creds : LoginCredentials) (hfeed : pyIn "feed" page.current_url = true) :
    doLogin s page creds = (ensureBrowser s, [], Outcome.ok "Already logged in") := by
  unfold doLogin doLoginBody
  rw [hfeed]
  rfl

/-- C6 witness: a login call that lands on the feed URL. -/
theorem doLogin_already_logged_in_witness :
    doLogin freshState feedLoginPage ⟨"a@x.com", "pw"⟩ =
      (ensureBrowser freshState, [], Outcome.ok "Already logged in") :=
  doLogin_already_logged_in freshState feedLoginPage ⟨"a@x.com", "pw"⟩ rfl

/-- C7. With an active session, when the probe reports not-connected,
`checkAndMessage` returns success with the distinct "Not connected yet"
message, performs no UI action at all (no message box opened, nothing
typed, nothing sent — in particular no invite and no retry), and leaves
the state unchanged. -/
theorem checkAndMessage_not_connected (s : BrowserState) (env : MessageEnv)
    (messageText : String) (pid : Nat) (hb : s.browser = some pid)
    (hprobe : checkIfConnected env.dom = false) :
    checkAndMessage s env messageText = (s, [], Outcome.ok "Not connected yet") := by
  unfold checkAndMessage checkAndMessageBody
  rw [hb, hprobe]
  rfl

/-- C7 witness: an active session against a page with no connectivity
indicator. -/
theorem checkAndMessage_not_connected_witness :
    checkAndMessage activeState emptyMessageEnv "hi" =
      (activeState, [], Outcome.ok "Not connected yet") :=
  checkAndMessage_not_connected activeState emptyMessageEnv "hi" 0 rfl rfl

/-- C8. With an active session: when the connect button is located but the
optional "Send now" confirmation does not appear within its 5-second
timeout, the absence is swallowed — `sendConnect` still saves the cookie
snapshot (the file exists afterwards) and reports "Connection request
sent"; whereas when the required step fails (no connect action located),
the whole operation fails with the generic 400 outcome. -/
theorem sendConnect_optional_confirmation (s : BrowserState) (env : ConnectEnv)
    (pid : Nat) (hb : s.browser = some pid) :
    (∀ b, findConnectBtn env.page = Except.ok b →
      env.confirmDom By.xpath sendNowSelector 5 = none →
      sendConnect s env =
        (saveCookies s, [UIAction.clickConnect], Outcome.ok "Connection request sent") ∧
      (saveCookies s).fileExists = true) ∧
    (∀ e, findConnectBtn env.page = Except.error e →
      sendConnect s env =
        (s, [], Outcome.httpError 400 "Couldn't send connection request")) := by
  constructor
  · intro b hfind hconfirm
    constructor
    · unfold sendConnect sendConnectBody waitForElement
      rw [hb, hfind, hconfirm]
    · simp [saveCookies, hb]
  · intro e hfind
    unfold sendConnect sendConnectBody
    rw [hb, hfind]

/-- C8 witness: active session, visible connect button, no confirmation
dialog — the request is still reported sent and the snapshot saved. -/
theorem sendConnect_optional_confirmation_witness :
    sendConnect activeState connectEnvNoConfirm =
      (saveCookies activeState, [UIAction.clickConnect],
        Outcome.ok "Connection request sent") ∧
    (saveCookies activeState).fileExists = true :=
  (sendConnect_optional_confirmation activeState connectEnvNoConfirm 0 rfl).1
    ⟨1, true⟩ rfl rfl

/-- C9 counterexample: with no live browser but a cookie file on disk,
`/close` still reports "Browser session closed", yet the cookie snapshot
file is NOT deleted (`shutdown`'s whole body, file removal included, is
inside `if self.browser:`), contradicting the claim that Close deletes the
on-disk snapshot. -/
theorem closeBrowser_stale_file_cex :
    (closeBrowser staleState).2 = Outcome.ok "Browser session closed" ∧
    (closeBrowser staleState).1.fileExists = true :=
  ⟨rfl, rfl⟩

/-- C9 amended: `/close` always succeeds with "Browser session closed";
when a live handle exists it is quit and the cookie snapshot file deleted,
but a close on an already-closed session is a pure no-op that leaves any
existing snapshot file in place. -/
theorem closeBrowser_spec (s : BrowserState) :
    (closeBrowser s).2 = Outcome.ok "Browser session closed" ∧
    (∀ pid, s.browser = some pid →
      (closeBrowser s).1.browser = none ∧ (closeBrowser s).1.fileExists = false) ∧
    (s.browser = none → (closeBrowser s).1 = s) := by
  refine ⟨rfl, ?_, ?_⟩
  · intro pid hb
    constructor <;> simp [closeBrowser, shutdown, hb]
  · intro hb
    simp [closeBrowser, shutdown, hb]

/-- C9 amended, witness: closing the active session succeeds, clears the
handle and deletes the snapshot. -/
theorem closeBrowser_spec_witness :
    (closeBrowser activeState).2 = Outcome.ok "Browser session closed" ∧
    (closeBrowser activeState).1.browser = none ∧
    (closeBrowser activeState).1.fileExists = false :=
  ⟨(closeBrowser_spec activeState).1, (closeBrowser_spec activeState).2.1 0 rfl⟩

/-- C10. With no active session, both `/connect` and `/check_connection`
raise their precondition `HTTPException` INSIDE the handler's `try` block
("Need to login first!" / "Login required!"), and the blanket `except
Exception` catches it and replaces it, so the caller receives the
operation's generic failure detail ("Couldn't send connection request" /
"Something went wrong with messaging"), not the precondition message. -/
theorem precondition_error_masked (s : BrowserState) (cenv : ConnectEnv)
    (menv : MessageEnv) (messageText : String) (hb : s.browser = none) :
    (sendConnectBody s cenv).2.2 =
      Except.error (PyExc.http ⟨400, "Need to login first!"⟩) ∧
    (sendConnect s cenv).2.2 =
      Outcome.httpError 400 "Couldn't send connection request" ∧
    (checkAndMessageBody s menv messageText).2.2 =
      Except.error (PyExc.http ⟨400, "Login required!"⟩) ∧
    (checkAndMessage s menv messageText).2.2 =
      Outcome.httpError 400 "Something went wrong with messaging" := by
  refine ⟨?_, ?_, ?_, ?_⟩ <;>
    simp [sendConnect, sendConnectBody, checkAndMessage, checkAndMessageBody, hb]

/-- C10 witness: the two handlers called with no browser running. -/
theorem precondition_error_masked_witness :
    (sendConnect freshState emptyConnectEnv).2.2 =
      Outcome.httpError 400 "Couldn't send connection request" ∧
    (checkAndMessage freshState emptyMessageEnv "hi").2.2 =
      Outcome.httpError 400 "Something went wrong with messaging" :=
  ⟨(precondition_error_masked freshState emptyConnectEnv emptyMessageEnv "hi" rfl).2.1,
   (precondition_error_masked freshState emptyConnectEnv emptyMessageEnv "hi" rfl).2.2.2⟩

end LinkedinAuto
